import Mathlib

/-!
Verification of the STM32 LCD UI library (touch normalizer, widget registry,
hit-test and dispatch engine, slider interaction handler) against its design
specification.  The C sources are shallowly embedded: machine integers
(uint16_t, uint32_t) are modelled as Nat with explicit reduction modulo
2 ^ 16 exactly where the C arithmetic wraps, stateful functions become
state-passing Lean functions, and callback invocations are recorded as
explicit events so that dispatch behaviour is observable.
-/

namespace StmLcdUi

/-- Modulus of C uint16_t arithmetic. -/
def U16 : Nat := 65536

/-!
## Touch signal normalizer (src/src/touch_ui.c, header touch_ui.h)
-/

/-- The event taxonomy `touch_ui_event_type_t` (touch_ui.h): none,
pressed, released, moved, and the reserved hold and double-tap gestures
that the normalizer never emits (touch_ui.c lines 81-84 leave them as an
extension point).  Constructor names mirror the C enumerators with the
common `touch_ui_event_` tag dropped; the first keeps an `event_` tag so
it does not collide with `Option.none`. -/
inductive touch_ui_event_type where
  | event_none
  | pressed
  | released
  | moved
  | held
  | double_tap
deriving DecidableEq, Repr

/-- The persistent single-touch tracking state `touch_ui_state_t`
(touch_ui.h), held as the `internal_state` field of the context and read
and written by `touch_ui_process_input` (src/src/touch_ui.c lines
54-93). -/
structure touch_ui_state where
  last_press_state : Bool
  last_x_position : Nat
  last_y_position : Nat
  last_press_timestamp_value : Nat
deriving DecidableEq, Repr

/-- The event record `touch_ui_event_t` (touch_ui.h) returned by the
normalizer: event type, uint16 coordinates, uint32 timestamp. -/
structure touch_ui_event where
  event_type : touch_ui_event_type
  x_position : Nat
  y_position : Nat
  timestamp_value : Nat
deriving DecidableEq, Repr

/-- Shallow embedding of `touch_ui_process_input`
(src/src/touch_ui.c lines 34-96), acting on the internal state instead of
a context pointer; returns the produced event and the updated state. -/
def touch_ui_process_input (st : touch_ui_state)
    (x_position y_position : Nat) (is_pressed : Bool) (timestamp_value : Nat) :
    touch_ui_event × touch_ui_state :=
  let event_result : touch_ui_event :=
    { event_type := .event_none
      x_position := x_position
      y_position := y_position
      timestamp_value := timestamp_value }
  let was_pressed := st.last_press_state
  let press_changed := was_pressed != is_pressed
  let step :=
    if !was_pressed && is_pressed then
      ({ event_result with event_type := .pressed },
       { st with
          last_x_position := x_position
          last_y_position := y_position
          last_press_timestamp_value := timestamp_value })
    else if was_pressed && !is_pressed then
      ({ event_result with event_type := .released }, st)
    else if is_pressed && !press_changed then
      if x_position ≠ st.last_x_position ∨ y_position ≠ st.last_y_position then
        ({ event_result with event_type := .moved }, st)
      else
        (event_result, st)
    else
      (event_result, st)
  let st2 := { step.2 with last_press_state := is_pressed }
  let st3 :=
    if is_pressed then
      { st2 with last_x_position := x_position, last_y_position := y_position }
    else st2
  (step.1, st3)

/-!
## Widget data model (src/include, lcd_ui.h section)
-/

/-- The widget type tag `lcd_ui_widget_type_t`. -/
inductive lcd_ui_widget_type where
  | button
  | slider
  | progress_bar
  | label
deriving DecidableEq, Repr

/-- The widget record `lcd_ui_widget` (lcd_ui.h).  Machine-integer fields
are Nats carrying uint16/uint32/uint8 values; `text_align` is the raw
integer value of the `lcd_ui_align_t` field (LEFT = 0, CENTER = 1,
RIGHT = 2), kept as a Nat because out-of-range values are representable
at the C level and are the subject of the insertion repair logic.
Pointer-valued fields are modelled by what the dispatch logic observes of
them: `has_on_touch` and `has_slider_update_callback` record whether the
callback pointers are non-null (the callbacks themselves are recorded as
dispatch events, not executed); `label_text` and `user_data` are not
needed by any dispatch or registry decision and are omitted. -/
structure lcd_ui_widget where
  x : Nat
  y : Nat
  width : Nat
  height : Nat
  type : lcd_ui_widget_type
  has_on_touch : Bool
  progress_percent : Nat
  slider_value : Nat
  background_color : Nat
  text_color : Nat
  text_align : Nat
  has_slider_update_callback : Bool
deriving DecidableEq, Repr

/-!
## Default slider interaction handler (src/src/lcd_ui.c lines 231-270)

The value computation of `default_slider_touch_handler` is a pure function
of the widget geometry fields and the touch x coordinate; the pieces below
follow the C statements one for one.  Arguments stand for the uint16
values of the fields and of the touch coordinate.  All intermediate
uint16 conversions wrap modulo 2 ^ 16 as in C (an int subtraction that
may go negative is written with an added U16 before the mod, which agrees
with the C conversion since the int value is never below -U16).
-/

/-- C line 242: `min_x = widget->x + knob_half` with
`knob_half = widget->height / 2`. -/
def slider_min_x (wx wheight : Nat) : Nat :=
  (wx + wheight / 2) % U16

/-- C line 243: `max_x = widget->x + widget->width - knob_half`. -/
def slider_max_x (wx wwidth wheight : Nat) : Nat :=
  (wx + wwidth + U16 - wheight / 2) % U16

/-- C line 244: `range_x = max_x - min_x` in uint16 arithmetic. -/
def slider_range_x (wx wwidth wheight : Nat) : Nat :=
  (slider_max_x wx wwidth wheight + U16 - slider_min_x wx wheight) % U16

/-- C lines 246-247: clamp the touch x to `[min_x, max_x]`
(the two comparisons exactly as written; when `max_x` has wrapped below
`min_x` the result is `min_x` or `max_x`, not a value in between). -/
def slider_clamped_x (wx wwidth wheight x : Nat) : Nat :=
  if x < slider_min_x wx wheight then slider_min_x wx wheight
  else if x > slider_max_x wx wwidth wheight then slider_max_x wx wwidth wheight
  else x

/-- C line 249: `relative_x = clamped_x - min_x` in uint16 arithmetic. -/
def slider_relative_x (wx wwidth wheight x : Nat) : Nat :=
  (slider_clamped_x wx wwidth wheight x + U16 - slider_min_x wx wheight) % U16

/-- C line 252: `new_slider_value = (relative_x * 100U) / range_x`,
computed in unsigned int (no wrap possible).  The C division is unguarded
against `range_x = 0` (undefined behaviour, flagged as an open question by
the spec); the Lean convention n / 0 = 0 stands in for that case, which no
claim exercises. -/
def default_slider_new_value (wx wwidth wheight x : Nat) : Nat :=
  slider_relative_x wx wwidth wheight x * 100 / slider_range_x wx wwidth wheight

/-- The slider mapping as the specification words it: clamp the touch x
into the usable range [x + height/2, x + width - height/2] of exact
natural-number arithmetic, then map linearly with truncating division.
This is the spec-side definition compared against the code-side
`default_slider_new_value`. -/
def slider_value_spec (wx wwidth wheight x : Nat) : Nat :=
  let lo := wx + wheight / 2
  let hi := wx + wwidth - wheight / 2
  let clamped := min (max x lo) hi
  (clamped - lo) * 100 / (hi - lo)

/-!
## Widget registry (src/src/lcd_ui.c lines 50-77)

The registry fields of `lcd_ui_context_t`: the caller-provided slot array
`widgets` (an array of `widget_capacity` pointers, each null or pointing
to a caller-owned widget), `widget_capacity` and `widget_count`.  A slot
holds `Option lcd_ui_widget`: `none` is a null pointer, and a pointer
write through a slot is modelled as replacing the stored widget value.
-/

/-- Registry state of `lcd_ui_context_t` (lcd_ui.h). -/
structure lcd_ui_registry where
  widgets : List (Option lcd_ui_widget)
  widget_capacity : Nat
  widget_count : Nat
deriving DecidableEq, Repr

/-- The write `ctx->widgets[i]->text_align = LCD_UI_ALIGN_LEFT` performed
by the repair branch of `lcd_ui_add_widget`: stores alignment 0 through
the pointer in slot i.  When the slot is null the C write dereferences a
null pointer, and when i is past the array it writes out of bounds (the
spec flags both); the model leaves the state unchanged in those cases,
which is the only defined-behaviour shadow of the C statement. -/
def set_align_left_at (slots : List (Option lcd_ui_widget)) (i : Nat) :
    List (Option lcd_ui_widget) :=
  slots.set i ((slots.getD i none).map fun w => { w with text_align := 0 })

/-- Shallow embedding of `lcd_ui_add_widget` (src/src/lcd_ui.c lines
62-77): reject when full, otherwise store the widget pointer at index
`widget_count` and post-increment; then, if the given widget's alignment
exceeds LCD_UI_ALIGN_RIGHT (= 2), repair the alignment of the widget in
slot `widget_count` - which is the slot after the one just written,
because the count was already incremented. -/
def lcd_ui_add_widget (ctx : lcd_ui_registry) (w : lcd_ui_widget) :
    lcd_ui_registry :=
  if ctx.widget_count ≥ ctx.widget_capacity then ctx
  else
    let ctx1 : lcd_ui_registry :=
      { ctx with
          widgets := ctx.widgets.set ctx.widget_count (some w)
          widget_count := ctx.widget_count + 1 }
    if w.text_align > 2 then
      { ctx1 with widgets := set_align_left_at ctx1.widgets ctx1.widget_count }
    else ctx1

/-- Shallow embedding of `lcd_ui_clear_widgets` (src/src/lcd_ui.c lines
50-61): zero the count and null every slot up to the capacity. -/
def lcd_ui_clear_widgets (ctx : lcd_ui_registry) : lcd_ui_registry :=
  { ctx with
      widget_count := 0
      widgets := List.replicate ctx.widget_capacity none }

/-- A featureless button widget used to populate concrete registries. -/
def demo_plain_widget : lcd_ui_widget :=
  { x := 0, y := 0, width := 10, height := 10, type := .button
    has_on_touch := false, progress_percent := 0, slider_value := 0
    background_color := 0, text_color := 0, text_align := 0
    has_slider_update_callback := false }

/-- An empty capacity-5 registry, as after `lcd_ui_clear_widgets`. -/
def demo_empty_registry : lcd_ui_registry :=
  { widgets := List.replicate 5 none, widget_capacity := 5, widget_count := 0 }

/-- The capacity-5 registry after five successful adds. -/
def demo_full_registry : lcd_ui_registry :=
  List.foldl lcd_ui_add_widget demo_empty_registry
    (List.replicate 5 demo_plain_widget)

/-- A stale widget value behind the pointer of a not-yet-registered slot.
The init routine does not null the caller-provided buffer, so such slots
are realistic; choosing a non-null stale pointer keeps the repair write
defined (a null slot would make the C code dereference null). -/
def demo_stale_widget : lcd_ui_widget :=
  { demo_plain_widget with type := .label, text_align := 1 }

/-- A widget whose text_align value 3 is out of range
(greater than LCD_UI_ALIGN_RIGHT = 2). -/
def demo_misaligned_widget : lcd_ui_widget :=
  { demo_plain_widget with text_align := 3 }

/-- A capacity-2 registry with no registered widgets, whose slot 1 still
holds a stale pointer. -/
def demo_stale_registry : lcd_ui_registry :=
  { widgets := [none, some demo_stale_widget]
    widget_capacity := 2
    widget_count := 0 }

/-!
## Hit-test and dispatch engine (src/src/lcd_ui.c lines 272-356)

The touch-session fields of `lcd_ui_context_t` are `active_widget` (a
pointer into the registered widgets, modelled as an index in registration
order) and `touch_active`.  `widgets` is the list of registered widgets
in registration order (the non-null prefix of the slot array that the
dispatch loop iterates, `ctx->widgets[0 .. widget_count)`).  Callback
invocations performed by `lcd_ui_handle_touch` are returned as a list of
`dispatch_call` events; the mutation the default slider handler performs
on the latched widget's `slider_value` field is applied to the list.
-/

/-- The per-context touch session together with the registered widgets. -/
structure lcd_ui_session where
  widgets : List lcd_ui_widget
  active_widget : Option Nat
  touch_active : Bool
deriving DecidableEq, Repr

/-- One callback invocation observed during `lcd_ui_handle_touch`:
the active widget's own `on_touch` (for sliders, during the press phase),
the default slider handler, or a button's `on_touch` fired on release.
Each carries the widget index and the coordinates passed to it. -/
inductive dispatch_call where
  | custom_touch (i : Nat) (x y : Nat)
  | default_slider (i : Nat) (x y : Nat)
  | button_touch (i : Nat) (x y : Nat)
deriving DecidableEq, Repr

/-- Per-type hit margin (src/src/lcd_ui.c lines 291-306): 6 for buttons,
height / 5 for sliders, 2 for everything else. -/
def widget_margin (w : lcd_ui_widget) : Nat :=
  match w.type with
  | .button => 6
  | .slider => w.height / 5
  | _ => 2

/-- Containment test of the expanded bounding box
(src/src/lcd_ui.c lines 308-314): the top-left corner is clamped at 0,
and the bottom-right corner x + width + margin wraps modulo 2 ^ 16 as the
uint16 locals do; the point is inside when x0 <= x < x1 and
y0 <= y < y1. -/
def widget_hit (w : lcd_ui_widget) (x y : Nat) : Bool :=
  let margin := widget_margin w
  let x0 := if w.x > margin then w.x - margin else 0
  let y0 := if w.y > margin then w.y - margin else 0
  let x1 := (w.x + w.width + margin) % U16
  let y1 := (w.y + w.height + margin) % U16
  decide (x0 ≤ x) && decide (x < x1) && decide (y0 ≤ y) && decide (y < y1)

/-- The hit-test loop (src/src/lcd_ui.c lines 287-319): scan the
registered widgets in registration order and return the index of the
first whose expanded box contains the point, breaking at the first
match. -/
def hit_test (ws : List lcd_ui_widget) (x y : Nat) : Option Nat :=
  match ws with
  | [] => none
  | w :: rest =>
    if widget_hit w x y then some 0
    else (hit_test rest x y).map (· + 1)

/-- Shallow embedding of `lcd_ui_handle_touch`
(src/src/lcd_ui.c lines 272-356).  On a pressed tick with no active
touch, latch `hit_test`; then, pressed with a latched slider, invoke its
custom `on_touch` if set, else the default handler (which writes the new
slider value back into the widget).  On release, fire a latched button's
`on_touch` with the release coordinates, then clear the session.  The
function returns the new session and the callback invocations, in order.
The inner `none` arms are unreachable for sessions whose active index
points at a registered widget (in C the pointer is always valid then). -/
def lcd_ui_handle_touch (s : lcd_ui_session) (x y : Nat) (is_pressed : Bool) :
    lcd_ui_session × List dispatch_call :=
  if is_pressed then
    let s1 :=
      if s.touch_active then s
      else { s with touch_active := true, active_widget := hit_test s.widgets x y }
    match s1.active_widget with
    | some i =>
      match s1.widgets.get? i with
      | some w =>
        if w.type = .slider then
          if w.has_on_touch then
            (s1, [.custom_touch i x y])
          else
            ({ s1 with
                widgets := s1.widgets.set i
                  { w with slider_value :=
                      default_slider_new_value w.x w.width w.height x } },
             [.default_slider i x y])
        else (s1, [])
      | none => (s1, [])
    | none => (s1, [])
  else
    let calls :=
      match s.active_widget with
      | some i =>
        match s.widgets.get? i with
        | some w =>
          if w.type = .button ∧ w.has_on_touch then [.button_touch i x y]
          else []
        | none => []
      | none => []
    ({ s with touch_active := false, active_widget := none }, calls)

/-- The session right after `lcd_ui_init` (src/src/lcd_ui.c lines 35-36):
no active widget, touch inactive. -/
def lcd_ui_init_session (ws : List lcd_ui_widget) : lcd_ui_session :=
  { widgets := ws, active_widget := none, touch_active := false }

/-- Dispatching a whole sequence of touch ticks (x, y, is_pressed)
through `lcd_ui_handle_touch`, keeping only the session. -/
def lcd_ui_run (s : lcd_ui_session) (inputs : List (Nat × Nat × Bool)) :
    lcd_ui_session :=
  inputs.foldl (fun t i => (lcd_ui_handle_touch t i.1 i.2.1 i.2.2).1) s

/-- The session invariant that survives every dispatch step: an active
widget implies an active touch. -/
def session_inv (s : lcd_ui_session) : Prop :=
  s.active_widget = none ∨ s.touch_active = true

/-- A second button, overlapping nothing, registered to the right of
`demo_plain_widget`; its expanded box is [24, 46) x [0, 16). -/
def demo_second_button : lcd_ui_widget :=
  { demo_plain_widget with x := 30 }

/-- A button overlapping `demo_plain_widget`: its expanded box
[0, 21) x [0, 16) and the plain widget's [0, 16) x [0, 16) share the
point (8, 5). -/
def demo_overlap_widget : lcd_ui_widget :=
  { demo_plain_widget with x := 5 }

/-- A slider widget without a custom touch callback. -/
def demo_slider : lcd_ui_widget :=
  { x := 0, y := 0, width := 100, height := 20, type := .slider
    has_on_touch := false, progress_percent := 0, slider_value := 0
    background_color := 0, text_color := 0, text_align := 0
    has_slider_update_callback := false }

/-- A concrete mid-drag session latched on the plain button while a
second button is also registered. -/
def demo_drag_session : lcd_ui_session :=
  { widgets := [demo_plain_widget, demo_second_button]
    active_widget := some 0
    touch_active := true }

/-- A concrete mid-drag session latched on the default slider. -/
def demo_slider_session : lcd_ui_session :=
  { widgets := [demo_slider]
    active_widget := some 0
    touch_active := true }

/-!
## Helper lemmas
-/

lemma slider_min_x_no_wrap (wx wwidth wheight : Nat)
    (hgeom : wx + wwidth ≤ 65535) (hwh : wheight ≤ wwidth) :
    slider_min_x wx wheight = wx + wheight / 2 := by
  simp only [slider_min_x, U16]
  omega

lemma slider_max_x_no_wrap (wx wwidth wheight : Nat)
    (hgeom : wx + wwidth ≤ 65535) (hwh : wheight ≤ wwidth) :
    slider_max_x wx wwidth wheight = wx + wwidth - wheight / 2 := by
  simp only [slider_max_x, U16]
  omega

lemma slider_range_x_no_wrap (wx wwidth wheight : Nat)
    (hgeom : wx + wwidth ≤ 65535) (hwh : wheight ≤ wwidth) :
    slider_range_x wx wwidth wheight = wwidth - wheight / 2 - wheight / 2 := by
  simp only [slider_range_x, slider_max_x, slider_min_x, U16]
  omega

lemma slider_clamped_x_no_wrap (wx wwidth wheight x : Nat)
    (hgeom : wx + wwidth ≤ 65535) (hwh : wheight ≤ wwidth) :
    slider_clamped_x wx wwidth wheight x =
      min (max x (wx + wheight / 2)) (wx + wwidth - wheight / 2) := by
  simp only [slider_clamped_x, slider_min_x, slider_max_x, U16]
  split <;> (try split) <;> omega

lemma slider_relative_x_no_wrap (wx wwidth wheight x : Nat)
    (hgeom : wx + wwidth ≤ 65535) (hwh : wheight ≤ wwidth) :
    slider_relative_x wx wwidth wheight x =
      min (max x (wx + wheight / 2)) (wx + wwidth - wheight / 2)
        - (wx + wheight / 2) := by
  simp only [slider_relative_x, slider_clamped_x, slider_min_x, slider_max_x, U16]
  split <;> (try split) <;> omega

lemma default_slider_new_value_no_wrap (wx wwidth wheight x : Nat)
    (hgeom : wx + wwidth ≤ 65535) (hwh : wheight ≤ wwidth) :
    default_slider_new_value wx wwidth wheight x =
      slider_value_spec wx wwidth wheight x := by
  have hrel := slider_relative_x_no_wrap wx wwidth wheight x hgeom hwh
  have hrange := slider_range_x_no_wrap wx wwidth wheight hgeom hwh
  simp only [default_slider_new_value, slider_value_spec, hrel, hrange]
  have hhi : wx + wwidth - wheight / 2 - (wx + wheight / 2)
      = wwidth - wheight / 2 - wheight / 2 := by omega
  rw [hhi]

lemma handle_touch_press_fields (s : lcd_ui_session) (x y : Nat) :
    (lcd_ui_handle_touch s x y true).1.touch_active = true ∧
    (lcd_ui_handle_touch s x y true).1.active_widget =
      (if s.touch_active then s.active_widget else hit_test s.widgets x y) := by
  unfold lcd_ui_handle_touch
  by_cases h : s.touch_active <;>
    simp only [h, if_true, if_false, Bool.false_eq_true, ite_true, ite_false] <;>
    (repeat' split) <;> simp_all

lemma handle_touch_release_fields (s : lcd_ui_session) (x y : Nat) :
    (lcd_ui_handle_touch s x y false).1 =
      { s with touch_active := false, active_widget := none } := by
  unfold lcd_ui_handle_touch
  simp

lemma handle_touch_establishes_inv (s : lcd_ui_session) (x y : Nat) (p : Bool) :
    session_inv (lcd_ui_handle_touch s x y p).1 := by
  cases p
  · rw [handle_touch_release_fields]
    exact Or.inl rfl
  · exact Or.inr (handle_touch_press_fields s x y).1

lemma lcd_ui_run_cons (s : lcd_ui_session) (i : Nat × Nat × Bool)
    (rest : List (Nat × Nat × Bool)) :
    lcd_ui_run s (i :: rest) =
      lcd_ui_run (lcd_ui_handle_touch s i.1 i.2.1 i.2.2).1 rest := rfl

lemma run_preserves_inv (inputs : List (Nat × Nat × Bool)) :
    ∀ s : lcd_ui_session, session_inv s → session_inv (lcd_ui_run s inputs) := by
  induction inputs with
  | nil => exact fun s h => h
  | cons i rest ih =>
    intro s _
    rw [lcd_ui_run_cons]
    exact ih _ (handle_touch_establishes_inv s i.1 i.2.1 i.2.2)

lemma hit_test_none_iff (ws : List lcd_ui_widget) (x y : Nat) :
    hit_test ws x y = none ↔ ∀ w ∈ ws, widget_hit w x y = false := by
  induction ws with
  | nil => simp [hit_test]
  | cons w rest ih =>
    by_cases h : widget_hit w x y <;> simp [hit_test, h, ih]

lemma hit_test_some_iff (ws : List lcd_ui_widget) (x y : Nat) (i : Nat) :
    hit_test ws x y = some i ↔
      (∃ w, ws.get? i = some w ∧ widget_hit w x y = true) ∧
      (∀ j w', j < i → ws.get? j = some w' → widget_hit w' x y = false) := by
  induction ws generalizing i with
  | nil => simp [hit_test]
  | cons w rest ih =>
    by_cases h : widget_hit w x y
    · simp only [hit_test, h, if_true]
      constructor
      · intro hi
        injection hi with hi
        subst hi
        exact ⟨⟨w, rfl, h⟩, fun j w' hj _ => absurd hj (Nat.not_lt_zero j)⟩
      · rintro ⟨⟨w', hw', hhit⟩, hmin⟩
        cases i with
        | zero => rfl
        | succ k =>
          have := hmin 0 w (Nat.succ_pos k) rfl
          rw [h] at this
          cases this
    · simp only [hit_test, h, if_false]
      constructor
      · intro hmap
        rcases Option.map_eq_some'.mp hmap with ⟨k, hk, hki⟩
        subst hki
        rcases (ih k).mp hk with ⟨⟨w', hw', hhit⟩, hmin⟩
        refine ⟨⟨w', by simpa using hw', hhit⟩, ?_⟩
        intro j wj hj hwj
        cases j with
        | zero =>
          simp only [List.get?_cons_zero, Option.some_inj] at hwj
          subst hwj
          exact Bool.eq_false_iff.mpr h
        | succ j' =>
          exact hmin j' wj (by omega) (by simpa using hwj)
      · rintro ⟨⟨w', hw', hhit⟩, hmin⟩
        cases i with
        | zero =>
          simp only [List.get?_cons_zero, Option.some_inj] at hw'
          subst hw'
          exact absurd hhit (Bool.eq_false_iff.mp (Bool.eq_false_iff.mpr h))
        | succ k =>
          have hk := (ih k).mpr
            ⟨⟨w', by simpa using hw', hhit⟩,
             fun j wj hj hwj => hmin (j + 1) wj (by omega) (by simpa using hwj)⟩
          rw [hk]
          rfl

/-!
## Claim theorems
-/

/-- C8: `touch_ui_process_input` implements exactly the listed transition
rules in priority order - not-pressed then pressed gives a pressed event
and latches (x, y, timestamp); pressed then not-pressed gives released;
still pressed with changed coordinates gives moved; still pressed with
unchanged coordinates gives none; held and double-tap are never emitted;
and in every case the stored last-press flag becomes the new pressed flag
and, while pressed, the stored last coordinates become the new ones. -/
theorem touch_ui_process_input_transitions (st : touch_ui_state)
    (x y : Nat) (p : Bool) (ts : Nat) :
    (st.last_press_state = false → p = true →
      (touch_ui_process_input st x y p ts).1.event_type = .pressed ∧
      (touch_ui_process_input st x y p ts).2.last_press_timestamp_value = ts) ∧
    (st.last_press_state = true → p = false →
      (touch_ui_process_input st x y p ts).1.event_type = .released) ∧
    (st.last_press_state = true → p = true →
      (x ≠ st.last_x_position ∨ y ≠ st.last_y_position) →
      (touch_ui_process_input st x y p ts).1.event_type = .moved) ∧
    (st.last_press_state = true → p = true →
      x = st.last_x_position → y = st.last_y_position →
      (touch_ui_process_input st x y p ts).1.event_type = .event_none) ∧
    (touch_ui_process_input st x y p ts).1.event_type ≠ .held ∧
    (touch_ui_process_input st x y p ts).1.event_type ≠ .double_tap ∧
    (touch_ui_process_input st x y p ts).2.last_press_state = p ∧
    (p = true →
      (touch_ui_process_input st x y p ts).2.last_x_position = x ∧
      (touch_ui_process_input st x y p ts).2.last_y_position = y) := by
  cases p <;> cases hl : st.last_press_state <;>
    by_cases hx : x = st.last_x_position <;>
    by_cases hy : y = st.last_y_position <;>
    simp_all [touch_ui_process_input]

/-- C8 witness: a fresh press from the reset state produces a pressed
event and latches the timestamp. -/
theorem touch_ui_process_input_transitions_witness :
    (touch_ui_process_input ⟨false, 0, 0, 0⟩ 5 7 true 42).1.event_type
        = .pressed ∧
    (touch_ui_process_input ⟨false, 0, 0, 0⟩ 5 7 true 42).2.last_press_timestamp_value
        = 42 :=
  (touch_ui_process_input_transitions ⟨false, 0, 0, 0⟩ 5 7 true 42).1 rfl rfl

/-- C10: the event returned by `touch_ui_process_input` carries the
current sample's coordinates and timestamp unchanged, in every case -
in particular released events report the current sample's coordinates,
never the stored last-pressed ones. -/
theorem touch_ui_event_passthrough (st : touch_ui_state)
    (x y : Nat) (p : Bool) (ts : Nat) :
    (touch_ui_process_input st x y p ts).1.x_position = x ∧
    (touch_ui_process_input st x y p ts).1.y_position = y ∧
    (touch_ui_process_input st x y p ts).1.timestamp_value = ts := by
  cases p <;> cases hl : st.last_press_state <;>
    by_cases hx : x = st.last_x_position <;>
    by_cases hy : y = st.last_y_position <;>
    simp_all [touch_ui_process_input]

/-- C4 counterexample: for the slider with x = 65000, width = 1000,
height = 10 touched at x = 65500 - a point inside the claimed usable
range [65005, 65995], where the claimed clamp-and-map formula yields
(65500 - 65005) * 100 / 990 = 50 - the handler stores 100 instead: its
uint16 computation of max_x wraps (65000 + 1000 - 5 is 459 modulo
65536), so the touch is clamped down to 459 and maps to the full range.
The unrestricted claim is therefore false; see the amended theorem. -/
theorem slider_clamp_map_counterexample :
    (65000 + 10 / 2 : Nat) ≤ 65500 ∧
    (65500 : Nat) ≤ 65000 + 1000 - 10 / 2 ∧
    slider_value_spec 65000 1000 10 65500 = 50 ∧
    default_slider_new_value 65000 1000 10 65500 = 100 ∧
    ¬ default_slider_new_value 65000 1000 10 65500 =
        slider_value_spec 65000 1000 10 65500 := by decide

/-- C4 (amended): for every slider whose usable range exists (knob no
wider than the track, height ≤ width) and whose geometry fits the uint16
coordinate space (x + width ≤ 65535 - the counterexample shows this
bound cannot be dropped), the default slider touch handler clamps the
touch x into the usable range
[widget.x + height/2, widget.x + width - height/2] and stores
slider_value = (clamped_x - min_x) * 100 / range_x with truncating
integer division, agreeing with the linear-interpolation
specification. -/
theorem default_slider_touch_handler_clamps_and_maps
    (wx wwidth wheight x : Nat)
    (hgeom : wx + wwidth ≤ 65535) (hwh : wheight ≤ wwidth) :
    slider_min_x wx wheight = wx + wheight / 2 ∧
    slider_max_x wx wwidth wheight = wx + wwidth - wheight / 2 ∧
    wx + wheight / 2 ≤ slider_clamped_x wx wwidth wheight x ∧
    slider_clamped_x wx wwidth wheight x ≤ wx + wwidth - wheight / 2 ∧
    default_slider_new_value wx wwidth wheight x =
      (slider_clamped_x wx wwidth wheight x - (wx + wheight / 2)) * 100
        / (wx + wwidth - wheight / 2 - (wx + wheight / 2)) ∧
    default_slider_new_value wx wwidth wheight x =
      slider_value_spec wx wwidth wheight x := by
  have hcl := slider_clamped_x_no_wrap wx wwidth wheight x hgeom hwh
  have heq := default_slider_new_value_no_wrap wx wwidth wheight x hgeom hwh
  refine ⟨slider_min_x_no_wrap wx wwidth wheight hgeom hwh,
          slider_max_x_no_wrap wx wwidth wheight hgeom hwh,
          by rw [hcl]; omega, by rw [hcl]; omega, ?_, heq⟩
  rw [heq, hcl]
  simp only [slider_value_spec]

/-- C4 witness: the slider with x = 0, width = 100, height = 20 (knob 20)
touched at x = 50 has usable range [10, 90], relative x 40 and value 50. -/
theorem default_slider_touch_handler_clamps_and_maps_witness :
    slider_min_x 0 20 = 10 ∧ slider_max_x 0 100 20 = 90 ∧
    slider_relative_x 0 100 20 50 = 40 ∧
    default_slider_new_value 0 100 20 50 = slider_value_spec 0 100 20 50 ∧
    default_slider_new_value 0 100 20 50 = 50 :=
  ⟨by decide, by decide, by decide,
   (default_slider_touch_handler_clamps_and_maps 0 100 20 50
      (by decide) (by decide)).2.2.2.2.2,
   by decide⟩

/-- C5 counterexample: the slider with x = 65000, width = 1000, height = 10
has positive usable range in the claim's sense (width > height), yet at the
lower usable bound 65005 = x + height/2 the handler computes 100, not the
claimed 0: the uint16 computation of max_x wraps
(65000 + 1000 - 5 is 459 modulo 65536), so every touch at or beyond min_x
is clamped to the wrapped max_x. -/
theorem slider_saturation_counterexample :
    (10 : Nat) < 1000 ∧
    (65005 : Nat) = 65000 + 10 / 2 ∧
    default_slider_new_value 65000 1000 10 65005 = 100 ∧
    ¬ default_slider_new_value 65000 1000 10 65005 = 0 := by decide

/-- C5 (amended): for every slider with positive usable range
(width > height) whose geometry additionally fits the uint16 coordinate
space (x + width ≤ 65535, which the counterexample shows cannot be
dropped), the default handler value is monotone non-decreasing in the
touch x, equals 0 for every touch at or below the lower usable bound, and
equals 100 for every touch at or above the upper usable bound. -/
theorem slider_value_monotone_saturates (wx wwidth wheight : Nat)
    (hgeom : wx + wwidth ≤ 65535) (hlt : wheight < wwidth) :
    (∀ x1 x2, x1 ≤ x2 →
      default_slider_new_value wx wwidth wheight x1 ≤
        default_slider_new_value wx wwidth wheight x2) ∧
    (∀ x, x ≤ wx + wheight / 2 →
      default_slider_new_value wx wwidth wheight x = 0) ∧
    (∀ x, wx + wwidth - wheight / 2 ≤ x →
      default_slider_new_value wx wwidth wheight x = 100) := by
  have hwh : wheight ≤ wwidth := le_of_lt hlt
  have hpos : 0 < wwidth - wheight / 2 - wheight / 2 := by omega
  refine ⟨?_, ?_, ?_⟩
  · intro x1 x2 h12
    rw [default_slider_new_value_no_wrap wx wwidth wheight x1 hgeom hwh,
        default_slider_new_value_no_wrap wx wwidth wheight x2 hgeom hwh]
    simp only [slider_value_spec]
    apply Nat.div_le_div_right
    apply Nat.mul_le_mul_right
    omega
  · intro x hx
    rw [default_slider_new_value_no_wrap wx wwidth wheight x hgeom hwh]
    simp only [slider_value_spec]
    have hc : min (max x (wx + wheight / 2)) (wx + wwidth - wheight / 2)
        = wx + wheight / 2 := by omega
    rw [hc]
    simp
  · intro x hx
    rw [default_slider_new_value_no_wrap wx wwidth wheight x hgeom hwh]
    simp only [slider_value_spec]
    have hc : min (max x (wx + wheight / 2)) (wx + wwidth - wheight / 2)
        = wx + wwidth - wheight / 2 := by omega
    have hr : wx + wwidth - wheight / 2 - (wx + wheight / 2)
        = wwidth - wheight / 2 - wheight / 2 := by omega
    rw [hc, hr]
    exact Nat.mul_div_cancel_left 100 hpos

/-- C5 witness for the amended claim, at the specification's own scenario
slider (x = 0, width = 100, height = 20). -/
theorem slider_value_monotone_saturates_witness :
    default_slider_new_value 0 100 20 10 = 0 ∧
    default_slider_new_value 0 100 20 90 = 100 ∧
    default_slider_new_value 0 100 20 40 ≤
      default_slider_new_value 0 100 20 60 :=
  ⟨(slider_value_monotone_saturates 0 100 20 (by decide) (by decide)).2.1
      10 (by decide),
   (slider_value_monotone_saturates 0 100 20 (by decide) (by decide)).2.2
      90 (by decide),
   (slider_value_monotone_saturates 0 100 20 (by decide) (by decide)).1
      40 60 (by decide)⟩

/-- C6: adding to a registry whose count has reached its capacity is a
no-op - the state, count and every slot included, is returned unchanged. -/
theorem add_widget_full_is_noop (ctx : lcd_ui_registry) (w : lcd_ui_widget)
    (hfull : ctx.widget_count = ctx.widget_capacity) :
    lcd_ui_add_widget ctx w = ctx := by
  unfold lcd_ui_add_widget
  rw [if_pos (ge_of_eq hfull)]

/-- C6 witness, the specification's Scenario 1: five widgets added to an
empty capacity-5 registry fill it; the sixth add is rejected and the
count stays 5. -/
theorem add_widget_full_is_noop_witness :
    (lcd_ui_add_widget demo_full_registry demo_plain_widget
      = demo_full_registry) ∧
    demo_full_registry.widget_count = 5 :=
  ⟨add_widget_full_is_noop demo_full_registry demo_plain_widget (by decide),
   by decide⟩

/-- C7 failing input: inserting the out-of-range widget into slot 0 of the
capacity-2 registry leaves the inserted widget's alignment at 3 (it is
never normalized) and instead rewrites the alignment of the stale widget
in slot 1 - the slot after the one just inserted - from 1 to 0, because
the repair indexes `widget_count` after the increment.  This contradicts
the claimed (and spec-intended) behaviour, which the spec itself flags as
a latent indexing bug. -/
theorem add_widget_alignment_repair_misses_inserted_slot :
    (lcd_ui_add_widget demo_stale_registry demo_misaligned_widget).widgets =
      [some demo_misaligned_widget,
       some { demo_stale_widget with text_align := 0 }] ∧
    demo_misaligned_widget.text_align = 3 ∧
    demo_stale_widget.text_align = 1 := by decide

/-- C1 counterexample: starting from an initialized context with no
widgets, a single press over empty space makes `touch_active` true while
`active_widget` stays none, so the claimed equivalence fails (only the
left-to-right direction survives; see the amended theorem). -/
theorem session_active_iff_counterexample :
    ¬ ((lcd_ui_run (lcd_ui_init_session []) [(0, 0, true)]).active_widget
          ≠ none ↔
       (lcd_ui_run (lcd_ui_init_session []) [(0, 0, true)]).touch_active
          = true) := by decide

/-- C1 (amended): for every sequence of touch ticks dispatched through
`lcd_ui_handle_touch` on an initialized context, `active_widget` is
non-none only if `touch_active` is true (the converse direction is
refuted by the counterexample: a press over empty space sets
`touch_active` with no active widget). -/
theorem session_active_only_if_touch_active (ws : List lcd_ui_widget)
    (inputs : List (Nat × Nat × Bool))
    (h : (lcd_ui_run (lcd_ui_init_session ws) inputs).active_widget ≠ none) :
    (lcd_ui_run (lcd_ui_init_session ws) inputs).touch_active = true :=
  (run_preserves_inv inputs (lcd_ui_init_session ws) (Or.inl rfl)).resolve_left h

/-- C1 witness for the amended claim: pressing inside the registered
button latches it, and the touch is indeed active. -/
theorem session_active_only_if_touch_active_witness :
    (lcd_ui_run (lcd_ui_init_session [demo_plain_widget])
        [(5, 5, true)]).touch_active = true :=
  session_active_only_if_touch_active [demo_plain_widget] [(5, 5, true)]
    (by decide)

/-- C2: drag-lock - in any session with an active touch latched on widget
i, dispatching any sequence of pressed ticks (any coordinates, including
points over other widgets' regions) leaves the active widget latched on i
and the touch active; no re-hit-testing occurs until a release tick. -/
theorem drag_lock (s : lcd_ui_session) (i : Nat) (moves : List (Nat × Nat))
    (hact : s.touch_active = true) (hlatch : s.active_widget = some i) :
    (lcd_ui_run s (moves.map fun m => (m.1, m.2, true))).active_widget
        = some i ∧
    (lcd_ui_run s (moves.map fun m => (m.1, m.2, true))).touch_active
        = true := by
  induction moves generalizing s with
  | nil => exact ⟨hlatch, hact⟩
  | cons m rest ih =>
    have hp := handle_touch_press_fields s m.1 m.2
    have h1 : (lcd_ui_handle_touch s m.1 m.2 true).1.active_widget = some i := by
      rw [hp.2, if_pos hact, hlatch]
    simp only [List.map_cons, lcd_ui_run_cons]
    exact ih _ hp.1 h1

/-- C2 witness: a session latched on the first button stays latched on it
through a pressed tick at (35, 5), a point inside the second button's
expanded box [24, 46) x [0, 16) and outside the first's. -/
theorem drag_lock_witness :
    widget_hit demo_second_button 35 5 = true ∧
    widget_hit demo_plain_widget 35 5 = false ∧
    (lcd_ui_run demo_drag_session [(35, 5, true)]).active_widget = some 0 :=
  ⟨by decide, by decide, (drag_lock demo_drag_session 0 [(35, 5)] rfl rfl).1⟩

/-- C3: on a press tick while no touch is active, the engine selects as
active widget exactly the first widget in registration order whose
expanded bounding box (per-type margin, top-left clamped at 0) contains
the touch point: no widget is selected exactly when no expanded box
contains the point, and the selected index always carries a hit while
every earlier-registered widget misses - so of two widgets whose boxes
both contain the point, the earlier-registered one wins. -/
theorem press_hit_test_first_match (s : lcd_ui_session) (x y : Nat)
    (hidle : s.touch_active = false) :
    ((lcd_ui_handle_touch s x y true).1.active_widget = none ↔
      ∀ w ∈ s.widgets, widget_hit w x y = false) ∧
    (∀ i, (lcd_ui_handle_touch s x y true).1.active_widget = some i ↔
      ((∃ w, s.widgets.get? i = some w ∧ widget_hit w x y = true) ∧
       (∀ j w', j < i → s.widgets.get? j = some w' →
          widget_hit w' x y = false))) := by
  have hp := (handle_touch_press_fields s x y).2
  rw [hidle] at hp
  simp only [Bool.false_eq_true, if_false, ite_false] at hp
  rw [hp]
  exact ⟨hit_test_none_iff s.widgets x y,
         fun i => hit_test_some_iff s.widgets x y i⟩

/-- C3 witness, the specification's Scenario 4: with two widgets whose
expanded boxes both contain (8, 5), registered first-overlapping-second,
the press selects index 0, the earlier-registered widget. -/
theorem press_hit_test_first_match_witness :
    widget_hit demo_plain_widget 8 5 = true ∧
    widget_hit demo_overlap_widget 8 5 = true ∧
    (lcd_ui_handle_touch
        (lcd_ui_init_session [demo_plain_widget, demo_overlap_widget])
        8 5 true).1.active_widget = some 0 :=
  ⟨by decide, by decide,
   ((press_hit_test_first_match
       (lcd_ui_init_session [demo_plain_widget, demo_overlap_widget])
       8 5 rfl).2 0).mpr
     ⟨⟨demo_plain_widget, rfl, by decide⟩,
      fun j w' hj _ => absurd hj (Nat.not_lt_zero j)⟩⟩

/-- C9: while a slider is the latched active widget, every pressed tick
forwards the current coordinates to its interaction handler - the custom
`on_touch` when set, otherwise the default slider handler - for arbitrary
coordinates, in or out of the widget's bounds; a latched non-slider
widget receives no per-tick callback; and a latched button with a touch
callback has it invoked exactly once, with the release coordinates, on
the release tick. -/
theorem dispatch_callback_routing (s : lcd_ui_session) (i : Nat)
    (w : lcd_ui_widget) (x y : Nat)
    (hact : s.touch_active = true) (hlatch : s.active_widget = some i)
    (hw : s.widgets.get? i = some w) :
    (w.type = .slider → w.has_on_touch = true →
      (lcd_ui_handle_touch s x y true).2 = [.custom_touch i x y]) ∧
    (w.type = .slider → w.has_on_touch = false →
      (lcd_ui_handle_touch s x y true).2 = [.default_slider i x y]) ∧
    (w.type ≠ .slider → (lcd_ui_handle_touch s x y true).2 = []) ∧
    (w.type = .button → w.has_on_touch = true →
      (lcd_ui_handle_touch s x y false).2 = [.button_touch i x y]) := by
  unfold lcd_ui_handle_touch
  simp only [hact, if_true, ite_true, hlatch, hw]
  refine ⟨?_, ?_, ?_, ?_⟩
  · intro h1 h2
    simp [h1, h2]
  · intro h1 h2
    simp [h1, h2]
  · intro h1
    simp [h1]
  · intro h1 h2
    simp [h1, h2]

/-- C9 witness: the latched default slider receives the default handler
call at (500, 500), a point far outside its bounds. -/
theorem dispatch_callback_routing_witness :
    (lcd_ui_handle_touch demo_slider_session 500 500 true).2
      = [.default_slider 0 500 500] :=
  (dispatch_callback_routing demo_slider_session 0 demo_slider 500 500
      rfl rfl rfl).2.1 rfl rfl

end StmLcdUi
